import Mathlib

set_option linter.unusedVariables false

/-!
Shallow embedding of the in-page element annotation engine: the dual-role
(primary/secondary) selection state machine, the single-lock selection
state machine, the hover highlight tracker, the input suppressors, the
idempotent setup guard and the XPath locator synthesizer, together with
proofs of the specified properties.

Elements are identified by natural numbers; CSS class membership is a map
from element identifiers to a record of the relevant class flags; the
window-global session fields become fields of an explicit state record.
-/

/-- JavaScript style values, used to model the truthiness coercion
performed by the mode toggle (double negation in the source). -/
inductive JSValue where
  | undef
  | nullv
  | bool (b : Bool)
  | num (n : Int)
  | str (s : String)
  | obj
deriving DecidableEq, Repr

/-- Truthiness of a JavaScript value. -/
def JSValue.truthy : JSValue → Bool
  | .undef => false
  | .nullv => false
  | .bool b => b
  | .num n => n != 0
  | .str s => s != ""
  | .obj => true

/-- DOM node for the locator synthesizer: node type (1 means element
node), tag name, id attribute and child nodes in document order. -/
inductive Dom where
  | mk (nodeType : Nat) (tagName : String) (id : String) (children : List Dom)
deriving Repr

/-- Node type of a DOM node (1 for element nodes). -/
def Dom.nodeType : Dom → Nat
  | .mk t _ _ _ => t

/-- Tag name of a DOM node. -/
def Dom.tagName : Dom → String
  | .mk _ g _ _ => g

/-- Value of the id property of a DOM node. -/
def Dom.id : Dom → String
  | .mk _ _ i _ => i

/-- Child nodes of a DOM node, in document order. -/
def Dom.children : Dom → List Dom
  | .mk _ _ _ c => c

/-- Follow a path of child indices from a node down to a descendant. -/
def getNode : Dom → List Nat → Option Dom
  | d, [] => some d
  | d, i :: p =>
    match d.children[i]? with
    | some c => getNode c p
    | none => none

/-- The sibling counting loop of getXPath: walk the child list of the
parent; when the element itself (at position idx) is reached, return one
plus the number of earlier same-tag element-node siblings; if the walk
runs past the end of the list, return none (the defensive branch of the
source that returns null). -/
def siblingIndex (tag : String) : List Dom → Nat → Nat → Option Nat
  | [], _, _ => none
  | _ :: _, 0, ix => some (ix + 1)
  | s :: rest, idx + 1, ix =>
    siblingIndex tag rest idx (if s.nodeType == 1 && s.tagName == tag then ix + 1 else ix)

/-- Lower-casing of a tag name (toLowerCase in the source), written over
the character list so that it evaluates inside proofs. -/
def toLowerStr (s : String) : String := ⟨s.data.map Char.toLower⟩

/-- Locator synthesizer getXPath, embedded over a DOM tree. An element is
addressed by the reversed path rev of child indices from root (the head of
rev is the index of the element among the child nodes of its parent);
bodyRev is the reversed path of document.body. The empty path addresses
root, modelling an element whose parentNode is null. The result
Except.error () models a thrown TypeError (reading childNodes of a null
parentNode), Except.ok none models the defensive return of null, and
Except.ok (some s) a returned locator string. -/
def getXPath (root : Dom) (bodyRev : List Nat) : List Nat → Except Unit (Option String)
  | [] =>
    if root.id ≠ "" then .ok (some ("//*[@id=\"" ++ root.id ++ "\"]"))
    else if ([] : List Nat) = bodyRev then .ok (some "/html/body")
    else .error ()
  | i :: p =>
    match getNode root (i :: p).reverse with
    | none => .error ()
    | some e =>
      if e.id ≠ "" then .ok (some ("//*[@id=\"" ++ e.id ++ "\"]"))
      else if i :: p = bodyRev then .ok (some "/html/body")
      else
        match getNode root p.reverse with
        | none => .error ()
        | some parent =>
          match siblingIndex e.tagName parent.children i 0 with
          | none => .ok none
          | some k =>
            match getXPath root bodyRev p with
            | .error u => .error u
            | .ok os =>
              .ok (some ((match os with
                | some s => s
                | none => "null") ++ "/" ++ toLowerStr e.tagName ++ "[" ++ toString k ++ "]"))

/-- Static per-element data read during capture: tag name, id, class
attribute, raw text content, form value (absent on elements without a
value property) and the synthesized xpath, plus the attribute list. -/
structure ElemInfo where
  tagName : String
  id : String
  className : String
  textContent : String
  value : Option String
  xpath : Option String
  attrs : List (String × String)
deriving DecidableEq, Repr

/-- The serialized record built at click time, stored as the selected
element data or pushed on the secondary data array. -/
structure CapturedData where
  tagName : String
  id : String
  className : String
  textContent : String
  value : Option String
  xpath : Option String
  attrs : List (String × String)
deriving DecidableEq, Repr

/-- Build the captured record for an element: text content is trimmed and
truncated to the first 100 characters, the other fields are copied, and
the attribute list is copied verbatim in document order (getAttributes in
the source). -/
def captureData (info : Nat → ElemInfo) (e : Nat) : CapturedData :=
  { tagName := (info e).tagName
    id := (info e).id
    className := (info e).className
    textContent := ((info e).textContent.trim).take 100
    value := (info e).value
    xpath := (info e).xpath
    attrs := (info e).attrs }

/-- Update a per-element map at one element. -/
def updAt {α : Type} (m : Nat → α) (k : Nat) (f : α → α) : Nat → α :=
  fun x => if x = k then f (m x) else m x

/-- Event target data consulted by the input suppressors. -/
structure EvTarget where
  tagName : String
  isContentEditable : Bool
deriving DecidableEq, Repr

/-- Keydown suppressor: true exactly when the handler calls preventDefault
and stopImmediatePropagation, blocking the keystroke before the native
handling of the page runs (the listener is attached in the capture
phase). -/
def keydownListener (mode : Bool) (t : EvTarget) : Bool :=
  mode && (t.tagName == "INPUT" || t.tagName == "TEXTAREA" || t.isContentEditable)

/-- Mousedown suppressor: true exactly when the handler cancels the event,
blocking select dropdowns from opening. -/
def selectMousedownListener (mode : Bool) (t : EvTarget) : Bool :=
  mode && t.tagName == "SELECT"

/-- Change suppressor: true exactly when the handler cancels the event;
while the mode flag is set it cancels every change event. -/
def changeEventListener (mode : Bool) (t : EvTarget) : Bool :=
  mode

/-- Hover events: pointer enter (mouseover) and pointer leave (mouseout)
on a target element. -/
inductive HoverEvent where
  | enter (t : Nat)
  | leave (t : Nat)
deriving DecidableEq, Repr

namespace Dual

/-- Class membership of one element in the dual-role variant. -/
structure CSet where
  highlight : Bool
  primary : Bool
  secondary : Bool
deriving DecidableEq, Repr

/-- Session state of the dual-role variant: the window-global fields, the
class membership of every element and the body cursor style. -/
structure State where
  annotationMode : Bool
  selectedElement : Option CapturedData
  elementLocked : Bool
  currentHighlighted : Option Nat
  lockedElement : Option Nat
  secondaryActualElement : List Nat
  secondaryElements : List CapturedData
  classes : Nat → CSet
  bodyCursor : String

/-- Hover handler of the dual-role variant: skip when the mode is off or
the target already carries a locked-role class; otherwise move the
transient highlight class to the target and track it. -/
def mouseoverListener (s : State) (t : Nat) : State :=
  if s.annotationMode = false then s
  else if (s.classes t).primary || (s.classes t).secondary then s
  else
    let cs :=
      match s.currentHighlighted with
      | some prev =>
        if prev ≠ t then updAt s.classes prev (fun c => { c with highlight := false })
        else s.classes
      | none => s.classes
    { s with
      classes := updAt cs t (fun c => { c with highlight := true })
      currentHighlighted := some t }

/-- Mouse out handler of the dual-role variant: if the leaving element is
the tracked one, drop its highlight class and clear the tracked reference
(this handler does not test the mode flag). -/
def mouseoutListener (s : State) (t : Nat) : State :=
  if s.currentHighlighted = some t then
    { s with
      classes := updAt s.classes t (fun c => { c with highlight := false })
      currentHighlighted := none }
  else s

/-- Click handler of the dual-role variant: with no element locked, lock
the target as the golden primary selection and capture its data; with a
primary locked, append the target as a green secondary selection unless it
already carries the secondary class or is the primary element itself. -/
def clickListener (info : Nat → ElemInfo) (s : State) (t : Nat) : State :=
  if s.annotationMode = false then s
  else if s.elementLocked = false then
    { s with
      elementLocked := true
      classes := updAt s.classes t (fun c => { c with highlight := false, primary := true })
      selectedElement := some (captureData info t)
      lockedElement := some t }
  else if (s.classes t).secondary = false ∧ s.lockedElement ≠ some t then
    { s with
      classes := updAt s.classes t (fun c => { c with highlight := false, secondary := true })
      secondaryElements := s.secondaryElements ++ [captureData info t]
      secondaryActualElement := s.secondaryActualElement ++ [t] }
  else s

/-- unlockElement of the dual-role variant: remove the golden class from
the primary element and clear its reference, clear the lock flag and the
captured data, and when the live secondary array is nonempty remove the
green class from each stored secondary element and clear both secondary
arrays; always returns true. -/
def unlockElement (s : State) : State × Bool :=
  let s1 :=
    match s.lockedElement with
    | some p =>
      { s with
        classes := updAt s.classes p (fun c => { c with primary := false })
        lockedElement := none }
    | none => s
  let s2 := { s1 with elementLocked := false, selectedElement := none }
  let s3 :=
    if s2.secondaryActualElement.length > 0 then
      { s2 with
        classes := s2.secondaryActualElement.foldl
          (fun m e => updAt m e (fun c => { c with secondary := false })) s2.classes
        secondaryElements := []
        secondaryActualElement := [] }
    else s2
  (s3, true)

/-- setAnnotationMode of the dual-role variant: coerce the argument to a
boolean, store it as the mode flag, set the crosshair cursor while
enabling; while disabling restore the default cursor, force an unlock and
clear the secondary data array. -/
def setAnnotationMode (s : State) (v : JSValue) : State :=
  let s1 := { s with annotationMode := v.truthy }
  if v.truthy then { s1 with bodyCursor := "crosshair" }
  else
    let s2 := { s1 with bodyCursor := "" }
    let s3 := (unlockElement s2).1
    { s3 with secondaryElements := [] }

/-- One hover event dispatched to the dual-role handlers. -/
def hoverStep (s : State) : HoverEvent → State
  | .enter t => mouseoverListener s t
  | .leave t => mouseoutListener s t

/-- A sequence of hover events dispatched to the dual-role handlers. -/
def hoverRun (s : State) (evs : List HoverEvent) : State :=
  evs.foldl hoverStep s

/-- An element carries a locked-role class (primary or secondary). -/
def lockedRole (s : State) (e : Nat) : Bool :=
  (s.classes e).primary || (s.classes e).secondary

end Dual

/-- One step of the reference tracker for the most recently entered
element that does not carry a locked-role class (L). -/
def lastStep (L : Nat → Bool) (acc : Option Nat) : HoverEvent → Option Nat
  | .enter t => if L t then acc else some t
  | .leave _ => acc

/-- The most recently entered element, among a sequence of hover events,
that does not carry a locked-role class. -/
def lastEnterNL (L : Nat → Bool) (evs : List HoverEvent) : Option Nat :=
  evs.foldl (lastStep L) none

namespace Single

/-- Class membership of one element in the single-lock variant. -/
structure CSet where
  highlight : Bool
  locked : Bool
deriving DecidableEq, Repr

/-- Session state of the single-lock variant. -/
structure State where
  annotationMode : Bool
  selectedElement : Option CapturedData
  elementLocked : Bool
  currentHighlighted : Option Nat
  lockedElement : Option Nat
  classes : Nat → CSet
  bodyCursor : String

/-- Hover handler of the single-lock variant: skip when the mode is off,
an element is locked, or the target carries the locked class; otherwise
move the highlight class to the target and track it. -/
def mouseoverListener (s : State) (t : Nat) : State :=
  if s.annotationMode = false || s.elementLocked then s
  else if (s.classes t).locked then s
  else
    let cs :=
      match s.currentHighlighted with
      | some prev =>
        if prev ≠ t then updAt s.classes prev (fun c => { c with highlight := false })
        else s.classes
      | none => s.classes
    let cs2 :=
      if (cs t).locked = false then updAt cs t (fun c => { c with highlight := true })
      else cs
    { s with classes := cs2, currentHighlighted := some t }

/-- Mouse out handler of the single-lock variant. -/
def mouseoutListener (s : State) (t : Nat) : State :=
  if s.annotationMode = false || s.elementLocked then s
  else if s.currentHighlighted = some t ∧ s.elementLocked = false then
    { s with
      classes := updAt s.classes t (fun c => { c with highlight := false })
      currentHighlighted := none }
  else s

/-- Click handler of the single-lock variant: while the mode is on and no
element is locked, drop the highlight of the tracked element, lock the
target (red locked class), capture its data and store its reference; when
an element is already locked the handler returns early and changes
nothing. -/
def clickListener (info : Nat → ElemInfo) (s : State) (t : Nat) : State :=
  if s.annotationMode = false then s
  else if s.elementLocked then s
  else
    let cs :=
      match s.currentHighlighted with
      | some prev => updAt s.classes prev (fun c => { c with highlight := false })
      | none => s.classes
    { s with
      elementLocked := true
      classes := updAt cs t (fun c => { c with highlight := false, locked := true })
      selectedElement := some (captureData info t)
      lockedElement := some t }

/-- unlockElement of the single-lock variant: remove the locked class from
the locked element, clear its reference, the lock flag and the captured
data; always returns true. -/
def unlockElement (s : State) : State × Bool :=
  let s1 :=
    match s.lockedElement with
    | some p =>
      { s with
        classes := updAt s.classes p (fun c => { c with locked := false })
        lockedElement := none }
    | none => s
  ({ s1 with elementLocked := false, selectedElement := none }, true)

/-- setAnnotationMode of the single-lock variant: coerce to boolean, store
the mode flag, set the crosshair cursor while enabling; while disabling
restore the default cursor and force an unlock. -/
def setAnnotationMode (s : State) (v : JSValue) : State :=
  let s1 := { s with annotationMode := v.truthy }
  if v.truthy then { s1 with bodyCursor := "crosshair" }
  else (unlockElement { s1 with bodyCursor := "" }).1

/-- A sequence of clicks dispatched to the single-lock click handler. -/
def clickRun (info : Nat → ElemInfo) (s : State) (ts : List Nat) : State :=
  ts.foldl (clickListener info) s

end Single

namespace Setup

/-- The six listener kinds installed by the setup function. -/
inductive EvKind where
  | mouseover
  | mouseout
  | click
  | keydown
  | mousedown
  | change
deriving DecidableEq, Repr

/-- The list of the six listener kinds in the order the setup function
removes stale listeners. -/
def kinds : List EvKind :=
  [.mouseover, .mouseout, .click, .keydown, .mousedown, .change]

/-- Window state seen by the setup guard: the setup-done flag, the stored
listener reference per kind, the set of attached listeners per kind (the
browser never attaches the same listener twice for one kind), the number
of installed style elements with the known identifier, and a counter
supplying fresh listener identities (each run creates new closures). -/
structure WinState where
  setupDone : Bool
  stored : EvKind → Option Nat
  attached : EvKind → List Nat
  styleCount : Nat
  nextId : Nat

/-- Primitive steps performed by the setup function, in source order. -/
inductive SetupOp where
  | removeStyle
  | addStyle
  | removeL (k : EvKind) (h : Nat)
  | storeL (k : EvKind) (h : Nat)
  | addL (k : EvKind) (h : Nat)
  | setFlag
deriving DecidableEq, Repr

/-- Apply one setup step to the window state. Removing a style removes the
first element with the identifier when one exists; removing a listener
removes a matching attached listener; adding a listener is a no-op when
the same listener is already attached (addEventListener semantics). -/
def applyOp (w : WinState) : SetupOp → WinState
  | .removeStyle => { w with styleCount := w.styleCount - 1 }
  | .addStyle => { w with styleCount := w.styleCount + 1 }
  | .removeL k h =>
    { w with attached := fun k2 => if k2 = k then (w.attached k).erase h else w.attached k2 }
  | .storeL k h =>
    { w with stored := fun k2 => if k2 = k then some h else w.stored k2 }
  | .addL k h =>
    { w with attached := fun k2 =>
        if k2 = k then (if h ∈ w.attached k then w.attached k else w.attached k ++ [h])
        else w.attached k2 }
  | .setFlag => { w with setupDone := true }

/-- The stale-listener removal steps: for each kind in source order, when
a listener reference is stored, remove it. -/
def removeOps (w : WinState) : List SetupOp :=
  kinds.filterMap (fun k => (w.stored k).map (SetupOp.removeL k))

/-- The installation steps in source order: mouseover, mouseout and click
are each stored then attached in turn; the keydown, mousedown and change
suppressors are all stored first and then all attached. Six fresh
listener identities starting at the current counter. -/
def installOps (w : WinState) : List SetupOp :=
  let h := w.nextId
  [.storeL .mouseover h, .addL .mouseover h,
   .storeL .mouseout (h + 1), .addL .mouseout (h + 1),
   .storeL .click (h + 2), .addL .click (h + 2),
   .storeL .keydown (h + 3), .storeL .mousedown (h + 4), .storeL .change (h + 5),
   .addL .keydown (h + 3), .addL .mousedown (h + 4), .addL .change (h + 5)]

/-- The full step trace of one setup run: replace the style element,
remove every stored stale listener, install the six fresh listeners, and
set the setup-done flag as the final step. -/
def setupOps (w : WinState) : List SetupOp :=
  [SetupOp.removeStyle, SetupOp.addStyle] ++ removeOps w ++ installOps w ++ [SetupOp.setFlag]

/-- The setup function: return unchanged when the setup-done flag is
already set, otherwise run the step trace and advance the identity
counter past the six listeners just created. -/
def setup (w : WinState) : WinState :=
  if w.setupDone then w
  else
    let w2 := (setupOps w).foldl applyOp w
    { w2 with nextId := w.nextId + 6 }

/-- The identity of the fresh listener created for each kind by a setup
run whose identity counter starts at base, matching the order in which the
run creates its six closures. -/
def freshId (base : Nat) : EvKind → Nat
  | .mouseover => base
  | .mouseout => base + 1
  | .click => base + 2
  | .keydown => base + 3
  | .mousedown => base + 4
  | .change => base + 5

/-- Listener registry invariant: every attached listener of a kind is the
stored one, and at most one listener per kind is attached. -/
def Inv (w : WinState) : Prop :=
  ∀ k : EvKind, w.attached k = [] ∨ ∃ h, w.stored k = some h ∧ w.attached k = [h]

end Setup

/-- Sample per-element data used to instantiate the theorems. -/
def sampleInfo : Nat → ElemInfo := fun _ =>
  { tagName := "DIV", id := "", className := "", textContent := "",
    value := none, xpath := none, attrs := [] }

/-- No class flags set (dual-role variant). -/
def cset0 : Dual.CSet :=
  { highlight := false, primary := false, secondary := false }

/-- A fresh dual-role session with the mode on and nothing locked. -/
def freshDual : Dual.State :=
  { annotationMode := true, selectedElement := none, elementLocked := false,
    currentHighlighted := none, lockedElement := none,
    secondaryActualElement := [], secondaryElements := [],
    classes := fun _ => cset0, bodyCursor := "crosshair" }

/-- A dual-role session with element 0 locked as primary. -/
def lockedDual : Dual.State :=
  { annotationMode := true,
    selectedElement := some (captureData sampleInfo 0), elementLocked := true,
    currentHighlighted := none, lockedElement := some 0,
    secondaryActualElement := [], secondaryElements := [],
    classes := updAt (fun _ => cset0) 0 (fun c => { c with primary := true }),
    bodyCursor := "crosshair" }

/-- An inconsistent dual-role session: the secondary data array is
nonempty while the live secondary array is empty. -/
def skewedDual : Dual.State :=
  { annotationMode := true, selectedElement := none, elementLocked := false,
    currentHighlighted := none, lockedElement := none,
    secondaryActualElement := [],
    secondaryElements := [captureData sampleInfo 5],
    classes := fun _ => cset0, bodyCursor := "" }

/-- No class flags set (single-lock variant). -/
def csetS0 : Single.CSet :=
  { highlight := false, locked := false }

/-- A fresh single-lock session with the mode on and nothing locked. -/
def freshSingle : Single.State :=
  { annotationMode := true, selectedElement := none, elementLocked := false,
    currentHighlighted := none, lockedElement := none,
    classes := fun _ => csetS0, bodyCursor := "crosshair" }

/-- A fresh window state before any setup run. -/
def freshWin : Setup.WinState :=
  { setupDone := false, stored := fun _ => none, attached := fun _ => [],
    styleCount := 0, nextId := 0 }

/-- The document used by the locator examples: the body holds a ul with
identifier list, whose children are three li elements without ids. -/
def liNode : Dom := .mk 1 "LI" "" []

/-- The ul element with identifier list and three li children. -/
def ulNode : Dom := .mk 1 "UL" "list" [liNode, liNode, liNode]

/-- The body element of the example document. -/
def bodyNode : Dom := .mk 1 "BODY" "" [ulNode]

/-- A detached element: a div with an empty identifier and no parent. -/
def detachedDiv : Dom := .mk 1 "DIV" "" []

/-- Number of same-tag element nodes in a list of siblings; applied to the
earlier siblings of an element it is the quantity the counting loop of
getXPath accumulates. -/
def countSameTag (tag : String) (l : List Dom) : Nat :=
  (l.filter (fun d => d.nodeType == 1 && d.tagName == tag)).length

section Lemmas

@[simp]
theorem updAt_same {α : Type} (m : Nat → α) (k : Nat) (f : α → α) :
    updAt m k f k = f (m k) := by
  simp [updAt]

theorem updAt_other {α : Type} (m : Nat → α) (k x : Nat) (f : α → α) (h : x ≠ k) :
    updAt m k f x = m x := by
  simp [updAt, h]

/-- The class map after the secondary-removal loop of unlockElement:
elements of the list lose the secondary flag, all other flags and
elements are untouched. -/
theorem dual_fold_secondary (l : List Nat) (m : Nat → Dual.CSet) (e : Nat) :
    (l.foldl (fun m2 x => updAt m2 x (fun c => { c with secondary := false })) m) e
      = { m e with secondary := if e ∈ l then false else (m e).secondary } := by
  induction l generalizing m with
  | nil => simp
  | cons a l ih =>
    simp only [List.foldl_cons, ih, List.mem_cons]
    by_cases hea : e = a
    · subst hea
      by_cases hel : e ∈ l <;> simp [hel, updAt]
    · rw [updAt_other m a e _ hea]
      by_cases hel : e ∈ l <;> simp [hel, hea]

theorem dual_unlock_elementLocked (s : Dual.State) :
    ((Dual.unlockElement s).1).elementLocked = false := by
  unfold Dual.unlockElement
  cases s.lockedElement <;> dsimp <;> split <;> rfl

theorem dual_unlock_selected (s : Dual.State) :
    ((Dual.unlockElement s).1).selectedElement = none := by
  unfold Dual.unlockElement
  cases s.lockedElement <;> dsimp <;> split <;> rfl

theorem dual_unlock_lockedElement (s : Dual.State) :
    ((Dual.unlockElement s).1).lockedElement = none := by
  unfold Dual.unlockElement
  cases h : s.lockedElement <;> dsimp <;> split <;> simp [h]

theorem dual_unlock_actual (s : Dual.State) :
    ((Dual.unlockElement s).1).secondaryActualElement = [] := by
  unfold Dual.unlockElement
  cases s.lockedElement <;> dsimp <;>
    · split
      · rfl
      · next h =>
        simp only [gt_iff_lt, Nat.pos_iff_ne_zero, ne_eq, not_not] at h
        exact List.eq_nil_of_length_eq_zero h

theorem dual_unlock_ret (s : Dual.State) :
    (Dual.unlockElement s).2 = true := by
  unfold Dual.unlockElement
  cases s.lockedElement <;> rfl

end Lemmas

section UnlockLemmas

theorem dual_unlock_noop (s : Dual.State) (h1 : s.lockedElement = none)
    (h2 : s.elementLocked = false) (h3 : s.selectedElement = none)
    (h4 : s.secondaryActualElement = []) :
    (Dual.unlockElement s).1 = s := by
  obtain ⟨m, sel, el, ch, le, act, sec, cls, cur⟩ := s
  simp only at h1 h2 h3 h4
  subst h1 h2 h3 h4
  rfl

theorem dual_unlock_primary_removed (s : Dual.State) (p : Nat)
    (h : s.lockedElement = some p) :
    (((Dual.unlockElement s).1).classes p).primary = false := by
  unfold Dual.unlockElement
  rw [h]
  dsimp
  split
  · simp only [dual_fold_secondary]
    simp [updAt]
  · simp [updAt]

theorem dual_unlock_secondary_removed (s : Dual.State) (e : Nat)
    (h : e ∈ s.secondaryActualElement) :
    (((Dual.unlockElement s).1).classes e).secondary = false := by
  unfold Dual.unlockElement
  cases hl : s.lockedElement <;> dsimp <;> split
  · simp only [dual_fold_secondary]
    simp [h]
  · next hg =>
    rw [List.eq_nil_of_length_eq_zero (Nat.eq_zero_of_not_pos hg)] at h
    exact absurd h (List.not_mem_nil e)
  · simp only [dual_fold_secondary]
    simp [h]
  · next hg =>
    rw [List.eq_nil_of_length_eq_zero (Nat.eq_zero_of_not_pos hg)] at h
    exact absurd h (List.not_mem_nil e)

theorem dual_unlock_data_cleared (s : Dual.State)
    (h : s.secondaryActualElement ≠ [] ∨ s.secondaryElements = []) :
    ((Dual.unlockElement s).1).secondaryElements = [] := by
  unfold Dual.unlockElement
  cases hl : s.lockedElement <;> dsimp <;> split <;>
    first
    | rfl
    | · next hg =>
        rcases h with h | h
        · exact absurd (List.eq_nil_of_length_eq_zero (Nat.eq_zero_of_not_pos hg)) h
        · exact h

theorem single_unlock_elementLocked (s : Single.State) :
    ((Single.unlockElement s).1).elementLocked = false := by
  unfold Single.unlockElement
  cases s.lockedElement <;> rfl

theorem single_unlock_selected (s : Single.State) :
    ((Single.unlockElement s).1).selectedElement = none := by
  unfold Single.unlockElement
  cases s.lockedElement <;> rfl

theorem single_unlock_lockedElement (s : Single.State) :
    ((Single.unlockElement s).1).lockedElement = none := by
  unfold Single.unlockElement
  cases h : s.lockedElement <;> simp [h]

theorem single_unlock_ret (s : Single.State) :
    (Single.unlockElement s).2 = true := by
  unfold Single.unlockElement
  cases s.lockedElement <;> rfl

theorem single_unlock_noop (s : Single.State) (h1 : s.lockedElement = none)
    (h2 : s.elementLocked = false) (h3 : s.selectedElement = none) :
    (Single.unlockElement s).1 = s := by
  obtain ⟨m, sel, el, ch, le, cls, cur⟩ := s
  simp only at h1 h2 h3
  subst h1 h2 h3
  rfl

theorem single_unlock_locked_removed (s : Single.State) (p : Nat)
    (h : s.lockedElement = some p) :
    (((Single.unlockElement s).1).classes p).locked = false := by
  unfold Single.unlockElement
  rw [h]
  simp [updAt]

end UnlockLemmas

/-- C4 (amended): unlockElement is idempotent and total in both variants —
calling it twice equals calling it once, it always returns true, and after
it the lock flag is false, the captured data and the primary reference are
cleared, the primary element loses its locked-role class, every stored
secondary element loses the secondary class, and the live secondary array
is empty; the secondary data array is cleared provided the two secondary
collections are consistent (live array nonempty, or data array already
empty); with nothing locked the call is a safe no-op. -/
theorem c4_unlock_idempotent :
    (∀ s : Dual.State,
      (Dual.unlockElement (Dual.unlockElement s).1).1 = (Dual.unlockElement s).1 ∧
      (Dual.unlockElement s).2 = true ∧
      ((Dual.unlockElement s).1).elementLocked = false ∧
      ((Dual.unlockElement s).1).selectedElement = none ∧
      ((Dual.unlockElement s).1).lockedElement = none ∧
      ((Dual.unlockElement s).1).secondaryActualElement = [] ∧
      (∀ p, s.lockedElement = some p →
        (((Dual.unlockElement s).1).classes p).primary = false) ∧
      (∀ e ∈ s.secondaryActualElement,
        (((Dual.unlockElement s).1).classes e).secondary = false) ∧
      (s.secondaryActualElement ≠ [] ∨ s.secondaryElements = [] →
        ((Dual.unlockElement s).1).secondaryElements = []) ∧
      (s.lockedElement = none → s.elementLocked = false → s.selectedElement = none →
        s.secondaryActualElement = [] → (Dual.unlockElement s).1 = s)) ∧
    (∀ s : Single.State,
      (Single.unlockElement (Single.unlockElement s).1).1 = (Single.unlockElement s).1 ∧
      (Single.unlockElement s).2 = true ∧
      ((Single.unlockElement s).1).elementLocked = false ∧
      ((Single.unlockElement s).1).selectedElement = none ∧
      ((Single.unlockElement s).1).lockedElement = none ∧
      (∀ p, s.lockedElement = some p →
        (((Single.unlockElement s).1).classes p).locked = false) ∧
      (s.lockedElement = none → s.elementLocked = false → s.selectedElement = none →
        (Single.unlockElement s).1 = s)) := by
  constructor
  · intro s
    exact ⟨dual_unlock_noop _ (dual_unlock_lockedElement s) (dual_unlock_elementLocked s)
        (dual_unlock_selected s) (dual_unlock_actual s),
      dual_unlock_ret s, dual_unlock_elementLocked s, dual_unlock_selected s,
      dual_unlock_lockedElement s, dual_unlock_actual s,
      fun p hp => dual_unlock_primary_removed s p hp,
      fun e he => dual_unlock_secondary_removed s e he,
      fun hc => dual_unlock_data_cleared s hc,
      fun h1 h2 h3 h4 => dual_unlock_noop s h1 h2 h3 h4⟩
  · intro s
    exact ⟨single_unlock_noop _ (single_unlock_lockedElement s) (single_unlock_elementLocked s)
        (single_unlock_selected s),
      single_unlock_ret s, single_unlock_elementLocked s, single_unlock_selected s,
      single_unlock_lockedElement s,
      fun p hp => single_unlock_locked_removed s p hp,
      fun h1 h2 h3 => single_unlock_noop s h1 h2 h3⟩

/-- C4 counterexample: the claim as stated promises that both secondary
collections are cleared for every session state; on a state whose live
secondary array is empty while the secondary data array is nonempty, the
source guard (which tests only the live array) skips the clearing, so the
data array survives the unlock. -/
theorem c4_unlock_counterexample :
    ((Dual.unlockElement skewedDual).1).secondaryElements
      = [captureData sampleInfo 5] := by
  rfl

/-- C4 witness: the amended theorem applied to concrete sessions. -/
theorem c4_unlock_idempotent_witness :
    lockedDual.lockedElement = some 0 ∧
    (((Dual.unlockElement lockedDual).1).classes 0).primary = false ∧
    freshSingle.lockedElement = none ∧
    (Single.unlockElement freshSingle).1 = freshSingle :=
  ⟨rfl,
    (c4_unlock_idempotent.1 lockedDual).2.2.2.2.2.2.1 0 rfl,
    rfl,
    (c4_unlock_idempotent.2 freshSingle).2.2.2.2.2.2 rfl rfl rfl⟩

theorem dual_unlock_mode (s : Dual.State) :
    ((Dual.unlockElement s).1).annotationMode = s.annotationMode := by
  unfold Dual.unlockElement
  cases s.lockedElement <;> dsimp <;> split <;> rfl

theorem dual_unlock_cursor (s : Dual.State) :
    ((Dual.unlockElement s).1).bodyCursor = s.bodyCursor := by
  unfold Dual.unlockElement
  cases s.lockedElement <;> dsimp <;> split <;> rfl

/-- C5: setAnnotationMode of the dual-role variant stores the boolean
coercion of its argument as the mode flag, sets the crosshair cursor
exactly while the coerced value is true and the default (empty) cursor
while it is false, and on disabling forces an unlock after which the lock
flag is false and both secondary collections are empty, for every prior
session state and every argument value. -/
theorem c5_set_mode :
    ∀ (s : Dual.State) (v : JSValue),
      (Dual.setAnnotationMode s v).annotationMode = v.truthy ∧
      (Dual.setAnnotationMode s v).bodyCursor
        = (if v.truthy = true then "crosshair" else "") ∧
      (v.truthy = false →
        (Dual.setAnnotationMode s v).elementLocked = false ∧
        (Dual.setAnnotationMode s v).secondaryElements = [] ∧
        (Dual.setAnnotationMode s v).secondaryActualElement = []) := by
  intro s v
  by_cases hv : v.truthy = true
  · simp [Dual.setAnnotationMode, hv]
  · have hv2 : v.truthy = false := by simpa using hv
    unfold Dual.setAnnotationMode
    rw [hv2]
    simp only [Bool.false_eq_true, if_false]
    refine ⟨?_, ?_, fun _ => ⟨?_, ?_, ?_⟩⟩
    · simp [dual_unlock_mode, hv2]
    · simp [dual_unlock_cursor]
    · simp [dual_unlock_elementLocked]
    · trivial
    · simp [dual_unlock_actual]

/-- C5 witness: the theorem applied to a locked session and the concrete
falsy argument 0 (and the truthy argument true). -/
theorem c5_set_mode_witness :
    (JSValue.num 0).truthy = false ∧
    (Dual.setAnnotationMode lockedDual (JSValue.num 0)).elementLocked = false ∧
    (Dual.setAnnotationMode lockedDual (JSValue.num 0)).secondaryElements = [] ∧
    (Dual.setAnnotationMode lockedDual (JSValue.num 0)).secondaryActualElement = [] ∧
    (Dual.setAnnotationMode freshDual (JSValue.bool true)).annotationMode = true :=
  ⟨rfl,
    ((c5_set_mode lockedDual (JSValue.num 0)).2.2 rfl).1,
    ((c5_set_mode lockedDual (JSValue.num 0)).2.2 rfl).2.1,
    ((c5_set_mode lockedDual (JSValue.num 0)).2.2 rfl).2.2,
    (c5_set_mode freshDual (JSValue.bool true)).1⟩

/-- C10: enabling (or re-enabling) annotation mode changes only the mode
flag and the body cursor, in both variants: the resulting state is the
prior state with the mode flag set and the crosshair cursor, all other
fields (lock flag, selected data, primary reference, tracked highlight,
secondary collections, class map) untouched. -/
theorem c10_enable_frame :
    ∀ (sA : Dual.State) (sB : Single.State),
      Dual.setAnnotationMode sA (JSValue.bool true)
        = { sA with annotationMode := true, bodyCursor := "crosshair" } ∧
      Single.setAnnotationMode sB (JSValue.bool true)
        = { sB with annotationMode := true, bodyCursor := "crosshair" } := by
  intro sA sB
  exact ⟨rfl, rfl⟩

/-- C9: while the mode flag is set the keydown suppressor cancels exactly
the events whose target is an INPUT, a TEXTAREA or a content-editable
element, the mousedown suppressor cancels exactly the events on a SELECT,
and the change suppressor cancels every change event; while the mode flag
is clear none of the three suppressors cancels anything. -/
theorem c9_input_suppressors :
    ∀ t : EvTarget,
      keydownListener true t
        = (t.tagName == "INPUT" || t.tagName == "TEXTAREA" || t.isContentEditable) ∧
      selectMousedownListener true t = (t.tagName == "SELECT") ∧
      changeEventListener true t = true ∧
      keydownListener false t = false ∧
      selectMousedownListener false t = false ∧
      changeEventListener false t = false := by
  intro t
  refine ⟨?_, ?_, rfl, rfl, rfl, rfl⟩
  · simp [keydownListener]
  · simp [selectMousedownListener]

theorem single_click_noop (info : Nat → ElemInfo) (s : Single.State) (t : Nat)
    (h1 : s.annotationMode = true) (h2 : s.elementLocked = true) :
    Single.clickListener info s t = s := by
  simp [Single.clickListener, h1, h2]

theorem single_click_lock (info : Nat → ElemInfo) (s : Single.State) (t : Nat)
    (h1 : s.annotationMode = true) (h2 : s.elementLocked = false) :
    (Single.clickListener info s t).annotationMode = true ∧
    (Single.clickListener info s t).elementLocked = true ∧
    (Single.clickListener info s t).selectedElement = some (captureData info t) ∧
    (Single.clickListener info s t).lockedElement = some t ∧
    ((Single.clickListener info s t).classes t).locked = true := by
  unfold Single.clickListener
  rw [h1, h2]
  simp [updAt, h1]

theorem single_click_other (info : Nat → ElemInfo) (s : Single.State) (t e : Nat)
    (h1 : s.annotationMode = true) (h2 : s.elementLocked = false) (hne : e ≠ t) :
    ((Single.clickListener info s t).classes e).locked = (s.classes e).locked := by
  unfold Single.clickListener
  rw [h1, h2]
  simp only [Bool.true_eq_false, if_false, Bool.false_eq_true]
  cases hc : s.currentHighlighted <;>
    · dsimp
      rw [updAt_other _ _ _ _ hne]
      try simp [updAt]
      try split <;> rfl

/-- C1: single-lock policy. From an unlocked session with the mode on and
no element carrying the locked class, the first click locks exactly the
target (it gains the locked class and every element carrying the locked
class afterwards is the target, the captured data and the reference are
stored, the lock flag is set); any sequence of subsequent clicks before an
unlock leaves the session unchanged, and more generally a click on any
locked session with the mode on is the identity. -/
theorem c1_single_lock_policy (info : Nat → ElemInfo) (s : Single.State) (t : Nat)
    (h1 : s.annotationMode = true) (h2 : s.elementLocked = false)
    (h3 : ∀ e, (s.classes e).locked = false) :
    ((Single.clickListener info s t).elementLocked = true ∧
      (Single.clickListener info s t).selectedElement = some (captureData info t) ∧
      (Single.clickListener info s t).lockedElement = some t ∧
      ((Single.clickListener info s t).classes t).locked = true ∧
      (∀ e, ((Single.clickListener info s t).classes e).locked = true → e = t)) ∧
    (∀ ts : List Nat,
      Single.clickRun info (Single.clickListener info s t) ts
        = Single.clickListener info s t) ∧
    (∀ (s2 : Single.State) (t2 : Nat), s2.annotationMode = true →
      s2.elementLocked = true → Single.clickListener info s2 t2 = s2) := by
  obtain ⟨hm, hl, hsel, href, hcl⟩ := single_click_lock info s t h1 h2
  refine ⟨⟨hl, hsel, href, hcl, ?_⟩, ?_, fun s2 t2 g1 g2 => single_click_noop info s2 t2 g1 g2⟩
  · intro e he
    by_cases het : e = t
    · exact het
    · rw [single_click_other info s t e h1 h2 het, h3 e] at he
      exact absurd he (by simp)
  · intro ts
    induction ts with
    | nil => rfl
    | cons a ts ih =>
      show Single.clickRun info _ (a :: ts) = _
      unfold Single.clickRun
      rw [List.foldl_cons, single_click_noop info _ a hm hl]
      exact ih

/-- C1 witness: the theorem applied to a fresh single-lock session,
clicking element 1 first and element 2 afterwards. -/
theorem c1_single_lock_policy_witness :
    freshSingle.annotationMode = true ∧ freshSingle.elementLocked = false ∧
    ((Single.clickListener sampleInfo freshSingle 1).classes 1).locked = true ∧
    Single.clickListener sampleInfo (Single.clickListener sampleInfo freshSingle 1) 2
      = Single.clickListener sampleInfo freshSingle 1 :=
  ⟨rfl, rfl,
    (c1_single_lock_policy sampleInfo freshSingle 1 rfl rfl (fun e => rfl)).1.2.2.2.1,
    (c1_single_lock_policy sampleInfo freshSingle 1 rfl rfl (fun e => rfl)).2.2
      (Single.clickListener sampleInfo freshSingle 1) 2 rfl rfl⟩

theorem dual_click_arrays (info : Nat → ElemInfo) (s : Dual.State) (t : Nat) :
    ((Dual.clickListener info s t).secondaryElements = s.secondaryElements ∧
      (Dual.clickListener info s t).secondaryActualElement = s.secondaryActualElement) ∨
    ((Dual.clickListener info s t).secondaryElements
        = s.secondaryElements ++ [captureData info t] ∧
      (Dual.clickListener info s t).secondaryActualElement
        = s.secondaryActualElement ++ [t]) := by
  unfold Dual.clickListener
  split
  · left; exact ⟨rfl, rfl⟩
  · split
    · left; exact ⟨rfl, rfl⟩
    · split
      · right; exact ⟨rfl, rfl⟩
      · left; exact ⟨rfl, rfl⟩

theorem dual_click_append (info : Nat → ElemInfo) (s : Dual.State) (t : Nat)
    (h1 : s.annotationMode = true) (h2 : s.elementLocked = true)
    (h3 : (s.classes t).secondary = false) (h4 : s.lockedElement ≠ some t) :
    (Dual.clickListener info s t).secondaryElements
        = s.secondaryElements ++ [captureData info t] ∧
      (Dual.clickListener info s t).secondaryActualElement
        = s.secondaryActualElement ++ [t] ∧
      ((Dual.clickListener info s t).classes t).secondary = true := by
  unfold Dual.clickListener
  rw [h1, h2]
  simp [h3, h4, updAt]

/-- C2: dual-role policy. While the mode is on and a primary element is
locked, a click on an element that is not the primary and does not carry
the secondary class appends exactly one entry to each of the secondary
data array and the live secondary array and gives the element the
secondary class; moreover every click preserves equality of the two array
lengths and preserves their index alignment (the data array is the
element-wise capture of the live array). -/
theorem c2_dual_role_append (info : Nat → ElemInfo) (s : Dual.State) (t : Nat)
    (h1 : s.annotationMode = true) (h2 : s.elementLocked = true)
    (h3 : (s.classes t).secondary = false) (h4 : s.lockedElement ≠ some t) :
    ((Dual.clickListener info s t).secondaryElements
        = s.secondaryElements ++ [captureData info t] ∧
      (Dual.clickListener info s t).secondaryActualElement
        = s.secondaryActualElement ++ [t] ∧
      ((Dual.clickListener info s t).classes t).secondary = true) ∧
    (∀ (s2 : Dual.State) (t2 : Nat),
      s2.secondaryElements.length = s2.secondaryActualElement.length →
      (Dual.clickListener info s2 t2).secondaryElements.length
        = (Dual.clickListener info s2 t2).secondaryActualElement.length) ∧
    (∀ (s2 : Dual.State) (t2 : Nat),
      s2.secondaryElements = s2.secondaryActualElement.map (captureData info) →
      (Dual.clickListener info s2 t2).secondaryElements
        = (Dual.clickListener info s2 t2).secondaryActualElement.map (captureData info)) := by
  refine ⟨dual_click_append info s t h1 h2 h3 h4, ?_, ?_⟩
  · intro s2 t2 hlen
    rcases dual_click_arrays info s2 t2 with ⟨ha, hb⟩ | ⟨ha, hb⟩ <;>
      rw [ha, hb] <;> simp [hlen]
  · intro s2 t2 hmap
    rcases dual_click_arrays info s2 t2 with ⟨ha, hb⟩ | ⟨ha, hb⟩ <;>
      rw [ha, hb] <;> simp [hmap]

/-- C2 witness: the theorem applied to a session with element 0 locked as
primary and a click on element 3. -/
theorem c2_dual_role_append_witness :
    lockedDual.annotationMode = true ∧ lockedDual.elementLocked = true ∧
    (lockedDual.classes 3).secondary = false ∧ lockedDual.lockedElement ≠ some 3 ∧
    (Dual.clickListener sampleInfo lockedDual 3).secondaryElements
      = lockedDual.secondaryElements ++ [captureData sampleInfo 3] ∧
    (Dual.clickListener sampleInfo lockedDual 3).secondaryActualElement
      = lockedDual.secondaryActualElement ++ [3] :=
  ⟨rfl, rfl, rfl, by decide,
    (c2_dual_role_append sampleInfo lockedDual 3 rfl rfl rfl (by decide)).1.1,
    (c2_dual_role_append sampleInfo lockedDual 3 rfl rfl rfl (by decide)).1.2.1⟩

theorem updAt_highlight_primary (m : Nat → Dual.CSet) (k x : Nat) (b : Bool) :
    ((updAt m k (fun c => { c with highlight := b })) x).primary = (m x).primary := by
  unfold updAt
  split <;> rfl

theorem updAt_highlight_secondary (m : Nat → Dual.CSet) (k x : Nat) (b : Bool) :
    ((updAt m k (fun c => { c with highlight := b })) x).secondary = (m x).secondary := by
  unfold updAt
  split <;> rfl

theorem dual_mouseover_mode (s : Dual.State) (t : Nat) :
    (Dual.mouseoverListener s t).annotationMode = s.annotationMode := by
  unfold Dual.mouseoverListener
  split
  · rfl
  split <;> rfl

theorem dual_mouseout_mode (s : Dual.State) (t : Nat) :
    (Dual.mouseoutListener s t).annotationMode = s.annotationMode := by
  unfold Dual.mouseoutListener
  split <;> rfl

theorem dual_mouseover_frame (s : Dual.State) (t e : Nat) :
    ((Dual.mouseoverListener s t).classes e).primary = (s.classes e).primary ∧
    ((Dual.mouseoverListener s t).classes e).secondary = (s.classes e).secondary := by
  unfold Dual.mouseoverListener
  split
  · exact ⟨rfl, rfl⟩
  split
  · exact ⟨rfl, rfl⟩
  dsimp
  cases hc : s.currentHighlighted
  · exact ⟨updAt_highlight_primary _ _ _ _, updAt_highlight_secondary _ _ _ _⟩
  · dsimp
    split
    · constructor <;>
        simp [updAt_highlight_primary, updAt_highlight_secondary]
    · exact ⟨updAt_highlight_primary _ _ _ _, updAt_highlight_secondary _ _ _ _⟩

theorem dual_mouseout_frame (s : Dual.State) (t e : Nat) :
    ((Dual.mouseoutListener s t).classes e).primary = (s.classes e).primary ∧
    ((Dual.mouseoutListener s t).classes e).secondary = (s.classes e).secondary := by
  unfold Dual.mouseoutListener
  split
  · exact ⟨updAt_highlight_primary _ _ _ _, updAt_highlight_secondary _ _ _ _⟩
  · exact ⟨rfl, rfl⟩

theorem dual_mouseover_skip (s : Dual.State) (t : Nat)
    (hmode : s.annotationMode = true)
    (hrt : ((s.classes t).primary || (s.classes t).secondary) = true) :
    Dual.mouseoverListener s t = s := by
  unfold Dual.mouseoverListener
  rw [hmode, hrt]
  simp

theorem dual_mouseover_active (s : Dual.State) (t : Nat)
    (hmode : s.annotationMode = true)
    (hrt : ((s.classes t).primary || (s.classes t).secondary) = false) :
    (Dual.mouseoverListener s t).currentHighlighted = some t ∧
    ((Dual.mouseoverListener s t).classes t).highlight = true ∧
    (∀ e, e ≠ t → ((Dual.mouseoverListener s t).classes e).highlight
      = (if s.currentHighlighted = some e then false else (s.classes e).highlight)) := by
  unfold Dual.mouseoverListener
  rw [hmode, hrt]
  simp only [Bool.true_eq_false, if_false, Bool.false_eq_true]
  refine ⟨by first | rfl | trivial, by simp [updAt], ?_⟩
  intro e he
  dsimp
  rw [updAt_other _ _ _ _ he]
  cases hc : s.currentHighlighted
  · simp
  · next prev =>
    dsimp
    by_cases hp : prev = t
    · subst hp
      have : ¬ prev ≠ prev := by simp
      simp only [this, if_false]
      have hne : some prev ≠ some e := by
        intro h
        exact he (Option.some.inj h).symm
      simp [hne]
    · simp only [ne_eq, hp, not_false_iff, if_true]
      by_cases hep : e = prev
      · subst hep
        simp [updAt]
      · rw [updAt_other _ _ _ _ hep]
        have hne : some prev ≠ some e := by
          intro h
          exact hep ((Option.some.inj h).symm)
        simp [hne]

theorem dual_mouseout_hit (s : Dual.State) (t : Nat)
    (hcur : s.currentHighlighted = some t) :
    (Dual.mouseoutListener s t).currentHighlighted = none ∧
    (∀ e, ((Dual.mouseoutListener s t).classes e).highlight
      = (if e = t then false else (s.classes e).highlight)) := by
  unfold Dual.mouseoutListener
  rw [hcur]
  simp only [if_pos rfl]
  refine ⟨by trivial, ?_⟩
  intro e
  dsimp
  by_cases he : e = t
  · subst he
    simp [updAt]
  · rw [updAt_other _ _ _ _ he]
    simp [he]

theorem dual_mouseout_miss (s : Dual.State) (t : Nat)
    (hcur : s.currentHighlighted ≠ some t) :
    Dual.mouseoutListener s t = s := by
  unfold Dual.mouseoutListener
  simp [hcur]

theorem dual_hover_inv_step (s0 s : Dual.State) (acc : Option Nat) (ev : HoverEvent)
    (hmode : s.annotationMode = true)
    (hinv : ∀ e, (s.classes e).highlight = true → s.currentHighlighted = some e)
    (hrole : ∀ e, Dual.lockedRole s e = Dual.lockedRole s0 e)
    (hacc : ∀ c, s.currentHighlighted = some c →
      acc = some c ∧ Dual.lockedRole s0 c = false) :
    (Dual.hoverStep s ev).annotationMode = true ∧
    (∀ e, ((Dual.hoverStep s ev).classes e).highlight = true →
      (Dual.hoverStep s ev).currentHighlighted = some e) ∧
    (∀ e, Dual.lockedRole (Dual.hoverStep s ev) e = Dual.lockedRole s0 e) ∧
    (∀ c, (Dual.hoverStep s ev).currentHighlighted = some c →
      lastStep (Dual.lockedRole s0) acc ev = some c ∧
      Dual.lockedRole s0 c = false) := by
  cases ev with
  | enter t =>
    dsimp only [Dual.hoverStep]
    by_cases hrt : ((s.classes t).primary || (s.classes t).secondary) = true
    · have heq := dual_mouseover_skip s t hmode hrt
      have hL0 : Dual.lockedRole s0 t = true := by
        rw [← hrole t]
        exact hrt
      rw [heq]
      refine ⟨hmode, hinv, hrole, ?_⟩
      intro c hc
      have h2 := hacc c hc
      dsimp only [lastStep]
      rw [hL0]
      simpa using h2
    · have hrt2 : ((s.classes t).primary || (s.classes t).secondary) = false := by
        simpa using hrt
      obtain ⟨hcur, hht, hother⟩ := dual_mouseover_active s t hmode hrt2
      have hL0 : Dual.lockedRole s0 t = false := by
        rw [← hrole t]
        exact hrt2
      refine ⟨by rw [dual_mouseover_mode]; exact hmode, ?_, ?_, ?_⟩
      · intro e he
        by_cases het : e = t
        · subst het
          exact hcur
        · exfalso
          rw [hother e het] at he
          by_cases hce : s.currentHighlighted = some e
          · rw [if_pos hce] at he
            exact absurd he (by simp)
          · rw [if_neg hce] at he
            exact hce (hinv e he)
      · intro e
        unfold Dual.lockedRole
        rw [(dual_mouseover_frame s t e).1, (dual_mouseover_frame s t e).2]
        exact hrole e
      · intro c hc
        rw [hcur] at hc
        have hct := Option.some.inj hc
        subst hct
        dsimp only [lastStep]
        rw [hL0]
        exact ⟨by simp, rfl⟩
  | leave t =>
    dsimp only [Dual.hoverStep]
    by_cases hcur : s.currentHighlighted = some t
    · obtain ⟨hc1, hc2⟩ := dual_mouseout_hit s t hcur
      refine ⟨by rw [dual_mouseout_mode]; exact hmode, ?_, ?_, ?_⟩
      · intro e he
        exfalso
        rw [hc2 e] at he
        by_cases het : e = t
        · rw [if_pos het] at he
          simp at he
        · rw [if_neg het] at he
          have h3 := hinv e he
          rw [hcur] at h3
          exact het (Option.some.inj h3).symm
      · intro e
        unfold Dual.lockedRole
        rw [(dual_mouseout_frame s t e).1, (dual_mouseout_frame s t e).2]
        exact hrole e
      · intro c hc
        rw [hc1] at hc
        exact absurd hc (by simp)
    · have heq := dual_mouseout_miss s t hcur
      rw [heq]
      refine ⟨hmode, hinv, hrole, ?_⟩
      intro c hc
      have h2 := hacc c hc
      dsimp only [lastStep]
      exact h2

theorem dual_hover_run_inv (s0 : Dual.State) :
    ∀ (evs : List HoverEvent) (s : Dual.State) (acc : Option Nat),
      s.annotationMode = true →
      (∀ e, (s.classes e).highlight = true → s.currentHighlighted = some e) →
      (∀ e, Dual.lockedRole s e = Dual.lockedRole s0 e) →
      (∀ c, s.currentHighlighted = some c →
        acc = some c ∧ Dual.lockedRole s0 c = false) →
      (Dual.hoverRun s evs).annotationMode = true ∧
      (∀ e, ((Dual.hoverRun s evs).classes e).highlight = true →
        (Dual.hoverRun s evs).currentHighlighted = some e) ∧
      (∀ e, Dual.lockedRole (Dual.hoverRun s evs) e = Dual.lockedRole s0 e) ∧
      (∀ c, (Dual.hoverRun s evs).currentHighlighted = some c →
        evs.foldl (lastStep (Dual.lockedRole s0)) acc = some c ∧
        Dual.lockedRole s0 c = false) := by
  intro evs
  induction evs with
  | nil =>
    intro s acc h1 h2 h3 h4
    exact ⟨h1, h2, h3, h4⟩
  | cons ev evs ih =>
    intro s acc h1 h2 h3 h4
    obtain ⟨g1, g2, g3, g4⟩ := dual_hover_inv_step s0 s acc ev h1 h2 h3 h4
    have main := ih (Dual.hoverStep s ev) (lastStep (Dual.lockedRole s0) acc ev) g1 g2 g3 g4
    simpa [Dual.hoverRun, List.foldl_cons] using main

/-- C3: hover tracking invariant of the dual-role variant. Starting from a
session with the mode on, no element highlighted and no tracked element,
after any sequence of pointer-enter and pointer-leave events at most one
element carries the transient highlight class; when an element does, it is
the most recently entered element among those not carrying a locked-role
class (and it carries no locked-role class itself); and entering an
element that carries a locked-role class changes nothing. -/
theorem c3_highlight_tracker (s0 : Dual.State) (evs : List HoverEvent)
    (hm : s0.annotationMode = true) (hc : s0.currentHighlighted = none)
    (hh : ∀ e, (s0.classes e).highlight = false) :
    (∀ e1 e2, ((Dual.hoverRun s0 evs).classes e1).highlight = true →
      ((Dual.hoverRun s0 evs).classes e2).highlight = true → e1 = e2) ∧
    (∀ e, ((Dual.hoverRun s0 evs).classes e).highlight = true →
      lastEnterNL (Dual.lockedRole s0) evs = some e ∧
      Dual.lockedRole s0 e = false) ∧
    (∀ t, Dual.lockedRole (Dual.hoverRun s0 evs) t = true →
      Dual.hoverStep (Dual.hoverRun s0 evs) (HoverEvent.enter t)
        = Dual.hoverRun s0 evs) := by
  obtain ⟨m1, m2, m3, m4⟩ := dual_hover_run_inv s0 evs s0 none hm
    (fun e he => absurd he (by rw [hh e]; simp))
    (fun e => rfl)
    (fun c hcur => absurd hcur (by rw [hc]; simp))
  refine ⟨?_, ?_, ?_⟩
  · intro e1 e2 he1 he2
    have q1 := m2 e1 he1
    have q2 := m2 e2 he2
    rw [q1] at q2
    exact Option.some.inj q2
  · intro e he
    exact m4 e (m2 e he)
  · intro t ht
    have hrt : (((Dual.hoverRun s0 evs).classes t).primary
        || ((Dual.hoverRun s0 evs).classes t).secondary) = true := ht
    dsimp only [Dual.hoverStep]
    exact dual_mouseover_skip _ t m1 hrt

/-- C3 witness: the theorem applied to a fresh session and a concrete
event sequence entering element 1, entering element 2, then leaving
element 2 and entering element 1 again — element 1 ends highlighted and is
the most recently entered non-locked element. -/
theorem c3_highlight_tracker_witness :
    freshDual.annotationMode = true ∧ freshDual.currentHighlighted = none ∧
    ((Dual.hoverRun freshDual
        [HoverEvent.enter 1, HoverEvent.enter 2,
          HoverEvent.leave 2, HoverEvent.enter 1]).classes 1).highlight = true ∧
    lastEnterNL (Dual.lockedRole freshDual)
        [HoverEvent.enter 1, HoverEvent.enter 2,
          HoverEvent.leave 2, HoverEvent.enter 1] = some 1 ∧
    Dual.lockedRole freshDual 1 = false :=
  ⟨rfl, rfl, rfl,
    ((c3_highlight_tracker freshDual
      [HoverEvent.enter 1, HoverEvent.enter 2, HoverEvent.leave 2, HoverEvent.enter 1]
      rfl rfl (fun e => rfl)).2.1 1 rfl).1,
    ((c3_highlight_tracker freshDual
      [HoverEvent.enter 1, HoverEvent.enter 2, HoverEvent.leave 2, HoverEvent.enter 1]
      rfl rfl (fun e => rfl)).2.1 1 rfl).2⟩

theorem getNode_append (root : Dom) (q : List Nat) (i : Nat) :
    getNode root (q ++ [i]) = (getNode root q).bind (fun d => d.children[i]?) := by
  induction q generalizing root with
  | nil =>
    cases h : root.children[i]? <;> simp [getNode, h]
  | cons j q ih =>
    show getNode root (j :: (q ++ [i])) = _
    cases h : root.children[j]? <;> simp [getNode, h, ih]

theorem getNode_parent (root : Dom) (p : List Nat) (i : Nat) (e : Dom)
    (h : getNode root (p.reverse ++ [i]) = some e) :
    ∃ parent, getNode root p.reverse = some parent ∧ parent.children[i]? = some e := by
  rw [getNode_append] at h
  cases hq : getNode root p.reverse with
  | none =>
    rw [hq] at h
    simp at h
  | some parent =>
    rw [hq] at h
    simp only [Option.some_bind] at h
    exact ⟨parent, rfl, h⟩

theorem siblingIndex_eq (tag : String) :
    ∀ (l : List Dom) (idx ix : Nat), idx < l.length →
      siblingIndex tag l idx ix = some (ix + countSameTag tag (l.take idx) + 1) := by
  intro l
  induction l with
  | nil =>
    intro idx ix h
    simp at h
  | cons a l ih =>
    intro idx ix h
    cases idx with
    | zero =>
      simp [siblingIndex, countSameTag]
    | succ n =>
      have hn : n < l.length := by simpa using h
      show siblingIndex tag l n _ = _
      by_cases hc : (a.nodeType == 1 && a.tagName == tag) = true
      · rw [if_pos hc, ih n _ hn]
        simp only [countSameTag, List.take_succ_cons, List.filter_cons, hc, if_true,
          List.length_cons]
        congr 1
        omega
      · rw [if_neg hc, ih n _ hn]
        simp only [countSameTag, List.take_succ_cons, List.filter_cons]
        rw [if_neg hc]

theorem siblingIndex_found (tag : String) (l : List Dom) (idx : Nat)
    (h : idx < l.length) :
    ∃ k, siblingIndex tag l idx 0 = some k :=
  ⟨_, siblingIndex_eq tag l idx 0 h⟩

theorem getXPath_id (root : Dom) (bodyRev rev : List Nat) (e : Dom)
    (hE : getNode root rev.reverse = some e) (hid : e.id ≠ "") :
    getXPath root bodyRev rev = .ok (some ("//*[@id=\"" ++ e.id ++ "\"]")) := by
  cases rev with
  | nil =>
    have hre : root = e := by simpa [getNode] using hE
    subst hre
    rw [getXPath, if_pos hid]
  | cons i p =>
    rw [getXPath, hE]
    dsimp only
    rw [if_pos hid]

theorem getXPath_body (root : Dom) (bodyRev : List Nat) (e : Dom)
    (hE : getNode root bodyRev.reverse = some e) (hid : e.id = "") :
    getXPath root bodyRev bodyRev = .ok (some "/html/body") := by
  cases hb : bodyRev with
  | nil =>
    subst hb
    have hre : root = e := by simpa [getNode] using hE
    subst hre
    rw [getXPath, if_neg (by simp [hid]), if_pos rfl]
  | cons i p =>
    subst hb
    rw [getXPath, hE]
    dsimp only
    rw [if_neg (by simp [hid]), if_pos rfl]

theorem getXPath_cons_eq (root : Dom) (bodyRev : List Nat) (i : Nat) (p : List Nat)
    (e parent : Dom) (k : Nat)
    (hE : getNode root (i :: p).reverse = some e)
    (hid : e.id = "")
    (hbody : i :: p ≠ bodyRev)
    (hP : getNode root p.reverse = some parent)
    (hsib : siblingIndex e.tagName parent.children i 0 = some k) :
    getXPath root bodyRev (i :: p)
      = match getXPath root bodyRev p with
        | .error u => .error u
        | .ok os =>
          .ok (some ((match os with
            | some s => s
            | none => "null") ++ "/" ++ toLowerStr e.tagName ++ "[" ++ toString k ++ "]")) := by
  rw [getXPath, hE]
  dsimp only
  rw [hid]
  simp only [ne_eq, not_true_eq_false, if_false]
  rw [if_neg hbody, hP]
  dsimp only
  rw [hsib]

/-- C6: canonical locator synthesis. For an element with a nonempty
identifier the locator selects by that identifier; for the body element
(empty identifier) it is the fixed absolute body path; otherwise the
locator is the locator of the parent concatenated with the lower-cased tag
name and the one-based position among same-tag element-node siblings
(earlier siblings only); in particular a third li child without identifier
under a ul with identifier list yields the expected locator. -/
theorem c6_xpath_canonical :
    (∀ (root : Dom) (bodyRev rev : List Nat) (e : Dom),
      getNode root rev.reverse = some e → e.id ≠ "" →
      getXPath root bodyRev rev = .ok (some ("//*[@id=\"" ++ e.id ++ "\"]"))) ∧
    (∀ (root : Dom) (bodyRev : List Nat) (e : Dom),
      getNode root bodyRev.reverse = some e → e.id = "" →
      getXPath root bodyRev bodyRev = .ok (some "/html/body")) ∧
    (∀ (root : Dom) (bodyRev : List Nat) (i : Nat) (p : List Nat)
        (e parent : Dom) (ps : String),
      getNode root (i :: p).reverse = some e → e.id = "" → i :: p ≠ bodyRev →
      getNode root p.reverse = some parent →
      getXPath root bodyRev p = .ok (some ps) →
      getXPath root bodyRev (i :: p)
        = .ok (some (ps ++ "/" ++ toLowerStr e.tagName ++ "["
            ++ toString (countSameTag e.tagName (parent.children.take i) + 1) ++ "]"))) ∧
    getXPath bodyNode [] [2, 0] = .ok (some "//*[@id=\"list\"]/li[3]") := by
  have hul : getXPath bodyNode [] [0] = .ok (some "//*[@id=\"list\"]") :=
    getXPath_id bodyNode [] [0] ulNode rfl (by decide)
  have hli := getXPath_cons_eq bodyNode [] 2 [0] liNode ulNode 3 rfl rfl (by simp) rfl rfl
  refine ⟨getXPath_id, getXPath_body, ?_, ?_⟩
  swap
  · rw [hli, hul]
    dsimp only
    rw [show ("//*[@id=\"list\"]" ++ "/" ++ toLowerStr liNode.tagName
        ++ "[" ++ toString (3 : Nat) ++ "]") = "//*[@id=\"list\"]/li[3]" from by decide]
  intro root bodyRev i p e parent ps hE hid hbody hP hrec
  have hE2 := hE
  rw [List.reverse_cons] at hE2
  obtain ⟨parent2, hP2, hchild⟩ := getNode_parent root p i e hE2
  rw [hP] at hP2
  have hpp : parent2 = parent := Option.some.inj hP2.symm
  subst hpp
  have hlt : i < parent2.children.length := by
    by_contra hge
    rw [List.getElem?_eq_none (le_of_not_lt hge)] at hchild
    exact Option.noConfusion hchild
  have hsib := siblingIndex_eq e.tagName parent2.children i 0 hlt
  rw [Nat.zero_add] at hsib
  rw [getXPath_cons_eq root bodyRev i p e parent2 _ hE hid hbody hP hsib, hrec]

/-- C6 witness: the theorem applied to the example document — the third li
(no identifier) under the ul with identifier list. -/
theorem c6_xpath_canonical_witness :
    getNode bodyNode ([2, 0] : List Nat).reverse = some liNode ∧
    liNode.id = "" ∧
    getXPath bodyNode [] [0] = .ok (some "//*[@id=\"list\"]") ∧
    getXPath bodyNode [] [2, 0]
      = .ok (some ("//*[@id=\"list\"]" ++ "/" ++ toLowerStr liNode.tagName ++ "["
          ++ toString (countSameTag liNode.tagName (ulNode.children.take 2) + 1) ++ "]")) :=
  ⟨rfl, rfl, rfl,
    c6_xpath_canonical.2.2.1 bodyNode [] 2 [0] liNode ulNode "//*[@id=\"list\"]"
      rfl rfl (by simp) rfl rfl⟩

/-- C7 (amended): safety of the locator synthesizer. For every element
reachable in the document tree, getXPath never returns the defensive null;
when some ancestor-or-self along the parent chain has a nonempty
identifier or is the body, it returns a non-null string; and in the
remaining case — the parent chain ends at an element with an empty
identifier and no parent node without passing the body or an identified
element — it throws (models the TypeError of reading childNodes of a null
parentNode) rather than returning null. -/
theorem c7_xpath_safety (root : Dom) (bodyRev rev : List Nat) (e : Dom)
    (hE : getNode root rev.reverse = some e) :
    getXPath root bodyRev rev ≠ .ok none ∧
    ((∃ j d, getNode root ((rev.drop j).reverse) = some d ∧
        (d.id ≠ "" ∨ rev.drop j = bodyRev)) →
      ∃ str, getXPath root bodyRev rev = .ok (some str)) ∧
    ((¬ ∃ j d, getNode root ((rev.drop j).reverse) = some d ∧
        (d.id ≠ "" ∨ rev.drop j = bodyRev)) →
      getXPath root bodyRev rev = .error ()) := by
  induction rev generalizing e with
  | nil =>
    have hre : root = e := by simpa [getNode] using hE
    subst hre
    by_cases h1 : root.id ≠ ""
    · have hx := getXPath_id root bodyRev [] root (by simp [getNode]) h1
      refine ⟨by rw [hx]; simp, fun _ => ⟨_, hx⟩, fun hno => ?_⟩
      exact absurd ⟨0, root, by simp [getNode], Or.inl h1⟩ hno
    · have h1b : root.id = "" := by simpa using h1
      by_cases h2 : ([] : List Nat) = bodyRev
      · subst h2
        have hx := getXPath_body root [] root (by simp [getNode]) h1b
        refine ⟨by rw [hx]; simp, fun _ => ⟨_, hx⟩, fun hno => ?_⟩
        exact absurd ⟨0, root, by simp [getNode], Or.inr rfl⟩ hno
      · have hx : getXPath root bodyRev [] = .error () := by
          rw [getXPath, if_neg h1, if_neg h2]
        refine ⟨by rw [hx]; simp, fun hex => ?_, fun _ => hx⟩
        exfalso
        obtain ⟨j, d, hd, hcond⟩ := hex
        rw [List.drop_nil] at hd hcond
        have hdr : root = d := by simpa [getNode] using hd
        subst hdr
        rcases hcond with hc | hc
        · exact h1 hc
        · exact h2 hc
  | cons i p ih =>
    have hE2 := hE
    rw [List.reverse_cons] at hE2
    obtain ⟨parent, hP, hchild⟩ := getNode_parent root p i e hE2
    have hlt : i < parent.children.length := by
      by_contra hge
      rw [List.getElem?_eq_none (le_of_not_lt hge)] at hchild
      exact Option.noConfusion hchild
    obtain ⟨k, hsib⟩ := siblingIndex_found e.tagName parent.children i hlt
    by_cases h1 : e.id ≠ ""
    · have hx := getXPath_id root bodyRev (i :: p) e hE h1
      refine ⟨by rw [hx]; simp, fun _ => ⟨_, hx⟩, fun hno => ?_⟩
      exact absurd ⟨0, e, by simpa using hE, Or.inl h1⟩ hno
    · have h1b : e.id = "" := by simpa using h1
      by_cases h2 : i :: p = bodyRev
      · have hEb := hE
        rw [h2] at hEb
        have hx : getXPath root bodyRev (i :: p) = .ok (some "/html/body") := by
          rw [h2]
          exact getXPath_body root bodyRev e hEb h1b
        refine ⟨by rw [hx]; simp, fun _ => ⟨_, hx⟩, fun hno => ?_⟩
        exact absurd ⟨0, e, by simpa using hE, Or.inr (by simpa using h2)⟩ hno
      · obtain ⟨ia, ib, ic⟩ := ih parent hP
        have hstep := getXPath_cons_eq root bodyRev i p e parent k hE h1b h2 hP hsib
        have hiff : (∃ j d, getNode root (((i :: p).drop j).reverse) = some d ∧
              (d.id ≠ "" ∨ (i :: p).drop j = bodyRev)) ↔
            (∃ j d, getNode root ((p.drop j).reverse) = some d ∧
              (d.id ≠ "" ∨ p.drop j = bodyRev)) := by
          constructor
          · rintro ⟨j, d, hd, hcond⟩
            cases j with
            | zero =>
              exfalso
              rw [List.drop_zero] at hd hcond
              rw [hE] at hd
              have hde : e = d := Option.some.inj hd
              subst hde
              rcases hcond with hc | hc
              · exact h1 hc
              · exact h2 hc
            | succ j =>
              exact ⟨j, d, by simpa using hd, by simpa using hcond⟩
          · rintro ⟨j, d, hd, hcond⟩
            exact ⟨j + 1, d, by simpa using hd, by simpa using hcond⟩
        refine ⟨?_, ?_, ?_⟩
        · rw [hstep]
          cases hrec : getXPath root bodyRev p with
          | error u => simp
          | ok os => cases os <;> simp
        · intro hex
          obtain ⟨ps, hps⟩ := ib (hiff.mp hex)
          rw [hstep, hps]
          exact ⟨_, rfl⟩
        · intro hno
          have hrec := ic (fun hex => hno (hiff.mpr hex))
          rw [hstep, hrec]

/-- C7 counterexample: the claim as stated says getXPath never throws and
returns null in the case of an element with an empty identifier and no
parent node; on exactly that input (a detached div, empty identifier, no
parent, not the body) the source dereferences the null parentNode and
throws, so the call neither completes normally nor returns null. -/
theorem c7_xpath_counterexample :
    getXPath detachedDiv [0] [] = Except.error () := rfl

/-- C7 witness: the amended theorem applied to the third li of the example
document, whose parent ul carries an identifier. -/
theorem c7_xpath_safety_witness :
    getNode bodyNode ([2, 0] : List Nat).reverse = some liNode ∧
    (∃ str, getXPath bodyNode [] [2, 0] = .ok (some str)) :=
  ⟨rfl,
    (c7_xpath_safety bodyNode [] [2, 0] liNode rfl).2.1
      ⟨1, ulNode, rfl, Or.inl (by decide)⟩⟩

theorem setup_remove_phase (w : Setup.WinState) :
    ∀ (ks : List Setup.EvKind) (w0 : Setup.WinState),
      (∀ k, w0.attached k = [] ∨ ∃ h, w.stored k = some h ∧ w0.attached k = [h]) →
      ((ks.filterMap (fun k2 => (w.stored k2).map (Setup.SetupOp.removeL k2))).foldl
          Setup.applyOp w0).stored = w0.stored ∧
      ((ks.filterMap (fun k2 => (w.stored k2).map (Setup.SetupOp.removeL k2))).foldl
          Setup.applyOp w0).setupDone = w0.setupDone ∧
      ((ks.filterMap (fun k2 => (w.stored k2).map (Setup.SetupOp.removeL k2))).foldl
          Setup.applyOp w0).nextId = w0.nextId ∧
      (∀ k, k ∈ ks →
        ((ks.filterMap (fun k2 => (w.stored k2).map (Setup.SetupOp.removeL k2))).foldl
          Setup.applyOp w0).attached k = []) ∧
      (∀ k, k ∉ ks →
        ((ks.filterMap (fun k2 => (w.stored k2).map (Setup.SetupOp.removeL k2))).foldl
          Setup.applyOp w0).attached k = w0.attached k) := by
  intro ks
  induction ks with
  | nil =>
    intro w0 hP
    exact ⟨rfl, rfl, rfl, by simp, fun k _ => rfl⟩
  | cons k0 ks ih =>
    intro w0 hP
    rw [List.filterMap_cons]
    cases hst : w.stored k0 with
    | none =>
      simp only [Option.map_none']
      obtain ⟨a1, a2, a3, a4, a5⟩ := ih w0 hP
      refine ⟨a1, a2, a3, ?_, ?_⟩
      · intro k hk
        rcases List.mem_cons.mp hk with hk0 | hkm
        · subst hk0
          by_cases hmem : k ∈ ks
          · exact a4 _ hmem
          · rw [a5 _ hmem]
            rcases hP k with hA | ⟨h2, hh2, hA⟩
            · exact hA
            · rw [hst] at hh2
              exact Option.noConfusion hh2
        · exact a4 _ hkm
      · intro k hk
        exact a5 k (fun hm => hk (List.mem_cons_of_mem _ hm))
    | some h =>
      simp only [Option.map_some']
      have hA10 : (Setup.applyOp w0 (Setup.SetupOp.removeL k0 h)).attached k0 = [] := by
        show (if k0 = k0 then (w0.attached k0).erase h else w0.attached k0) = []
        rw [if_pos rfl]
        rcases hP k0 with hA | ⟨h2, hh2, hA⟩
        · rw [hA]
          rfl
        · rw [hst] at hh2
          have hh3 : h = h2 := Option.some.inj hh2
          rw [hA, ← hh3, List.erase_cons_head]
      have hfr : ∀ k, k ≠ k0 →
          (Setup.applyOp w0 (Setup.SetupOp.removeL k0 h)).attached k = w0.attached k := by
        intro k hkk
        show (if k = k0 then (w0.attached k0).erase h else w0.attached k) = w0.attached k
        rw [if_neg hkk]
      have hP1 : ∀ k, (Setup.applyOp w0 (Setup.SetupOp.removeL k0 h)).attached k = [] ∨
          ∃ h2, w.stored k = some h2 ∧
            (Setup.applyOp w0 (Setup.SetupOp.removeL k0 h)).attached k = [h2] := by
        intro k
        by_cases hkk : k = k0
        · subst hkk
          exact Or.inl hA10
        · rw [hfr k hkk]
          exact hP k
      obtain ⟨a1, a2, a3, a4, a5⟩ := ih (Setup.applyOp w0 (Setup.SetupOp.removeL k0 h)) hP1
      rw [List.foldl_cons]
      refine ⟨a1, a2, a3, ?_, ?_⟩
      · intro k hk
        rcases List.mem_cons.mp hk with hk0 | hkm
        · subst hk0
          by_cases hmem : k ∈ ks
          · exact a4 _ hmem
          · rw [a5 _ hmem]
            exact hA10
        · exact a4 _ hkm
      · intro k hk
        rw [a5 k (fun hm => hk (List.mem_cons_of_mem _ hm))]
        exact hfr k (fun he => hk (by rw [he]; exact List.mem_cons_self _ _))

theorem setup_removeOps_clears (w w0 : Setup.WinState)
    (hP : ∀ k, w0.attached k = [] ∨ ∃ h, w.stored k = some h ∧ w0.attached k = [h]) :
    ((Setup.removeOps w).foldl Setup.applyOp w0).stored = w0.stored ∧
    ((Setup.removeOps w).foldl Setup.applyOp w0).setupDone = w0.setupDone ∧
    ((Setup.removeOps w).foldl Setup.applyOp w0).nextId = w0.nextId ∧
    (∀ k, ((Setup.removeOps w).foldl Setup.applyOp w0).attached k = []) := by
  obtain ⟨a1, a2, a3, a4, a5⟩ := setup_remove_phase w Setup.kinds w0 hP
  exact ⟨a1, a2, a3, fun k => a4 k (by cases k <;> simp [Setup.kinds])⟩

theorem setup_install_phase (w : Setup.WinState) (w0 : Setup.WinState)
    (hA : ∀ k, w0.attached k = []) :
    (∀ k, ((Setup.installOps w).foldl Setup.applyOp w0).stored k
        = some (Setup.freshId w.nextId k)) ∧
    (∀ k, ((Setup.installOps w).foldl Setup.applyOp w0).attached k
        = [Setup.freshId w.nextId k]) ∧
    ((Setup.installOps w).foldl Setup.applyOp w0).setupDone = w0.setupDone ∧
    ((Setup.installOps w).foldl Setup.applyOp w0).nextId = w0.nextId := by
  refine ⟨?_, ?_, ?_, ?_⟩
  · intro k
    cases k <;>
      simp [Setup.installOps, Setup.applyOp, Setup.freshId, hA]
  · intro k
    cases k <;>
      simp [Setup.installOps, Setup.applyOp, Setup.freshId, hA]
  · simp [Setup.installOps, Setup.applyOp]
  · simp [Setup.installOps, Setup.applyOp]

theorem setup_done_noop (w : Setup.WinState) (h : w.setupDone = true) :
    Setup.setup w = w := by
  unfold Setup.setup
  rw [if_pos h]

theorem setup_post (w : Setup.WinState) (hflag : w.setupDone = false)
    (hInv : Setup.Inv w) :
    (Setup.setup w).setupDone = true ∧
    (∀ k, (Setup.setup w).stored k = some (Setup.freshId w.nextId k)) ∧
    (∀ k, (Setup.setup w).attached k = [Setup.freshId w.nextId k]) ∧
    (Setup.setup w).nextId = w.nextId + 6 := by
  have hP : ∀ k, (([Setup.SetupOp.removeStyle,
        Setup.SetupOp.addStyle].foldl Setup.applyOp w)).attached k = [] ∨
      ∃ h, w.stored k = some h ∧
        (([Setup.SetupOp.removeStyle,
          Setup.SetupOp.addStyle].foldl Setup.applyOp w)).attached k = [h] :=
    hInv
  obtain ⟨r1, r2, r3, r4⟩ := setup_removeOps_clears w
    ([Setup.SetupOp.removeStyle, Setup.SetupOp.addStyle].foldl Setup.applyOp w) hP
  obtain ⟨i1, i2, i3, i4⟩ := setup_install_phase w
    ((Setup.removeOps w).foldl Setup.applyOp
      ([Setup.SetupOp.removeStyle, Setup.SetupOp.addStyle].foldl Setup.applyOp w)) r4
  have hsetup : Setup.setup w
      = { Setup.applyOp
            ((Setup.installOps w).foldl Setup.applyOp
              ((Setup.removeOps w).foldl Setup.applyOp
                ([Setup.SetupOp.removeStyle,
                  Setup.SetupOp.addStyle].foldl Setup.applyOp w)))
            Setup.SetupOp.setFlag
          with nextId := w.nextId + 6 } := by
    unfold Setup.setup
    rw [if_neg (by simp [hflag])]
    unfold Setup.setupOps
    rw [List.foldl_append, List.foldl_append, List.foldl_append]
    rfl
  rw [hsetup]
  refine ⟨rfl, ?_, ?_, rfl⟩
  · intro k
    show (Setup.applyOp _ Setup.SetupOp.setFlag).stored k = _
    exact i1 k
  · intro k
    show (Setup.applyOp _ Setup.SetupOp.setFlag).attached k = _
    exact i2 k

theorem setup_inv_preserved (w : Setup.WinState) (hInv : Setup.Inv w) :
    Setup.Inv (Setup.setup w) := by
  by_cases hd : w.setupDone = true
  · rw [setup_done_noop w hd]
    exact hInv
  · have hflag : w.setupDone = false := by simpa using hd
    obtain ⟨p1, p2, p3, p4⟩ := setup_post w hflag hInv
    intro k
    exact Or.inr ⟨Setup.freshId w.nextId k, p2 k, p3 k⟩

theorem inv_length (w : Setup.WinState) (hInv : Setup.Inv w) (k : Setup.EvKind) :
    (w.attached k).length ≤ 1 := by
  rcases hInv k with h | ⟨h2, _, h⟩ <;> simp [h]

/-- C8: the setup guard. Running setup with the setup-done flag already
set is an exact no-op; the listener registry invariant (every attached
listener is the stored one) is preserved by any number of setup runs, so
at most one listener of each kind is ever attached; on a real run the flag
ends set, and each kind ends with exactly the one freshly stored listener
attached; and in the step trace of a run the stale-listener removals all
precede the installations, each stored listener is removed, each fresh
listener is stored and attached, and the flag-setting step is last. -/
theorem c8_setup_idempotent :
    (∀ w : Setup.WinState, w.setupDone = true → Setup.setup w = w) ∧
    (∀ (w : Setup.WinState) (n : Nat) (k : Setup.EvKind), Setup.Inv w →
      Setup.Inv (Setup.setup^[n] w) ∧
      ((Setup.setup^[n] w).attached k).length ≤ 1) ∧
    (∀ w : Setup.WinState, w.setupDone = false → Setup.Inv w →
      (Setup.setup w).setupDone = true ∧
      ∀ k, (Setup.setup w).stored k = some (Setup.freshId w.nextId k) ∧
        (Setup.setup w).attached k = [Setup.freshId w.nextId k]) ∧
    (∀ w : Setup.WinState,
      (Setup.setupOps w).getLast? = some Setup.SetupOp.setFlag ∧
      Setup.setupOps w = [Setup.SetupOp.removeStyle, Setup.SetupOp.addStyle]
        ++ Setup.removeOps w ++ Setup.installOps w ++ [Setup.SetupOp.setFlag] ∧
      (∀ k h, w.stored k = some h →
        Setup.SetupOp.removeL k h ∈ Setup.removeOps w) ∧
      (∀ k, Setup.SetupOp.storeL k (Setup.freshId w.nextId k) ∈ Setup.installOps w ∧
        Setup.SetupOp.addL k (Setup.freshId w.nextId k) ∈ Setup.installOps w)) := by
  refine ⟨setup_done_noop, ?_, ?_, ?_⟩
  · intro w n k hInv
    induction n with
    | zero => exact ⟨hInv, inv_length w hInv k⟩
    | succ n ihn =>
      rw [Function.iterate_succ_apply']
      have hi := setup_inv_preserved _ ihn.1
      exact ⟨hi, inv_length _ hi k⟩
  · intro w hflag hInv
    obtain ⟨p1, p2, p3, p4⟩ := setup_post w hflag hInv
    exact ⟨p1, fun k => ⟨p2 k, p3 k⟩⟩
  · intro w
    refine ⟨?_, rfl, ?_, ?_⟩
    · show ((([Setup.SetupOp.removeStyle, Setup.SetupOp.addStyle]
          ++ Setup.removeOps w ++ Setup.installOps w) ++ [Setup.SetupOp.setFlag])).getLast?
        = some Setup.SetupOp.setFlag
      exact List.getLast?_concat _
    · intro k h hst
      refine List.mem_filterMap.mpr ⟨k, ?_, ?_⟩
      · cases k <;> simp [Setup.kinds]
      · rw [hst]
        rfl
    · intro k
      constructor <;> cases k <;> simp [Setup.installOps, Setup.freshId]

/-- C8 witness: the theorem applied to a fresh window state and, for the
no-op part, a window state with the flag already set. -/
theorem c8_setup_idempotent_witness :
    freshWin.setupDone = false ∧ Setup.Inv freshWin ∧
    (Setup.setup freshWin).setupDone = true ∧
    (Setup.setup freshWin).attached Setup.EvKind.click
      = [Setup.freshId freshWin.nextId Setup.EvKind.click] ∧
    Setup.setup { freshWin with setupDone := true } = { freshWin with setupDone := true } :=
  ⟨rfl, fun k => Or.inl rfl,
    (c8_setup_idempotent.2.2.1 freshWin rfl (fun k => Or.inl rfl)).1,
    ((c8_setup_idempotent.2.2.1 freshWin rfl (fun k => Or.inl rfl)).2 Setup.EvKind.click).2,
    c8_setup_idempotent.1 { freshWin with setupDone := true } rfl⟩
